import Mathlib

/-!
Verification development for the bubble-popping arcade game
(`src/App.tsx`, `src/unnamed/part_000` .. `part_002`,
`src/services/geminiService.ts`).

The repository holds several revisions of the same application: `App.tsx`
contains two full revisions of the `App` component (called "variant A" and
"variant B" below), and `src/unnamed/part_002` is a third revision whose
game-logic matches variant B's `gameLoop` and variant A's `createBubble`.
`src/unnamed/part_000` is the shared types module, `src/unnamed/part_001`
holds the two feedback services.

The embedding below is shallow: React state setters become pure functions
on an explicit `AppState`; `Math.random()` draws become explicit rational
parameters (an oracle `Nat → ℚ` where a burst of draws is needed);
JavaScript numbers for positions, sizes and speeds become `ℚ`; integral
counters (`score`, `level`) become `ℕ` and `lives`/`health` (which the code
can drive below zero before clamping) become `ℤ`.
-/

namespace BubblePop

/-- INITIAL_LIVES constant (App.tsx line 15). -/
def INITIAL_LIVES : Int := 3

/-- MAX_LIVES constant (App.tsx line 16). -/
def MAX_LIVES : Int := 5

/-- BubbleType enum (src/unnamed/part_000 lines 1-7). -/
inductive BubbleType where
  | STANDARD
  | SPEEDY
  | ARMORED
  | HEART
  | GOLD
deriving DecidableEq, Repr

/-- GameStatus enum exactly as declared in src/unnamed/part_000 lines 42-46:
it has the three members START, PLAYING, GAMEOVER and no others.
(The variant-B `App` and `part_002` additionally reference
`GameStatus.PAUSED` / `GameStatus.TUTORIAL`, which this declaration does
not define.) -/
inductive GameStatus where
  | START
  | PLAYING
  | GAMEOVER
deriving DecidableEq, Repr

/-- The string value carried by each declared GameStatus member
(src/unnamed/part_000 lines 42-46). -/
def statusName : GameStatus → String
  | GameStatus.START => "START"
  | GameStatus.PLAYING => "PLAYING"
  | GameStatus.GAMEOVER => "GAMEOVER"

/-- Every member of the declared GameStatus enum. -/
def allStatuses : List GameStatus :=
  [GameStatus.START, GameStatus.PLAYING, GameStatus.GAMEOVER]

/-- BubbleData interface (src/unnamed/part_000 lines 9-21). -/
structure BubbleData where
  id : Rat
  x : Rat
  y : Rat
  size : Rat
  speed : Rat
  color : String
  points : Nat
  isPopping : Bool
  type : BubbleType
  health : Int
  maxHealth : Int
deriving DecidableEq, Repr

/-- Particle interface (src/unnamed/part_000 lines 23-31). -/
structure Particle where
  id : Rat
  x : Rat
  y : Rat
  vx : Rat
  vy : Rat
  color : String
  life : Rat
deriving DecidableEq, Repr

/-- FloatingText interface (src/unnamed/part_000 lines 33-40). -/
structure FloatingText where
  id : Rat
  x : Rat
  y : Rat
  text : String
  color : String
  life : Rat
deriving DecidableEq, Repr

/-- GameState interface (src/unnamed/part_000 lines 48-54) together with the
`highScore` extension the App component adds to it (App.tsx line 24).
The cosmetic `backgroundUrl` extension is omitted. -/
structure GameState where
  score : Nat
  lives : Int
  level : Nat
  status : GameStatus
  geminiMessage : String
  highScore : Nat
deriving DecidableEq, Repr

/-- The full mutable state of the App component: the GameState plus the three
transient entity collections (App.tsx lines 24-36). -/
structure AppState where
  gameState : GameState
  bubbles : List BubbleData
  particles : List Particle
  floatingTexts : List FloatingText
deriving DecidableEq, Repr

/-- COLORS constant (App.tsx lines 7-13). -/
def COLORS : List String :=
  ["rgba(147, 197, 253, 0.5)",
   "rgba(249, 168, 212, 0.5)",
   "rgba(167, 243, 208, 0.5)",
   "rgba(253, 230, 138, 0.5)",
   "rgba(196, 181, 253, 0.5)"]

/-- The per-spawn bubble profile chosen by `createBubble`: the mutable locals
`type`, `size`, `health`, `speedMult`, `color`, `points` after the threshold
chain has run. -/
structure SpawnProfile where
  type : BubbleType
  size : Rat
  health : Int
  speedMult : Rat
  color : String
  points : Nat
deriving DecidableEq, Repr

/-- The default (Standard) profile: the initial values of the locals in
`createBubble` before the threshold chain (App.tsx lines 154-159).
`sizeRand`, `colorRand` are the `Math.random()` draws used for the default
size and color. -/
def defaultProfile (sizeRand colorRand : Rat) : SpawnProfile :=
  { type := BubbleType.STANDARD,
    size := sizeRand * 40 + 50,
    health := 1,
    speedMult := 1,
    color := COLORS.getD (Int.floor (colorRand * (COLORS.length : Rat))).toNat "",
    points := 100 }

/-- Threshold chain of `createBubble` in App.tsx variant A (lines 161-183)
and, identically, src/unnamed/part_002 (lines 143-151): the Heart band is a
flat `rand < 0.05` guarded by `lives < MAX_LIVES`; a failed guard falls
through to the same `rand` tested against the next bands. -/
def spawnProfile (rand sizeRand colorRand : Rat) (lives : Int) : SpawnProfile :=
  if rand < 5/100 ∧ lives < MAX_LIVES then
    { defaultProfile sizeRand colorRand with
        type := BubbleType.HEART, color := "rgba(244, 63, 94, 0.7)", size := 60 }
  else if rand < 12/100 then
    { defaultProfile sizeRand colorRand with
        type := BubbleType.GOLD, color := "rgba(250, 204, 21, 0.7)", size := 50,
        points := 500 }
  else if rand < 25/100 then
    { defaultProfile sizeRand colorRand with
        type := BubbleType.SPEEDY, color := "rgba(56, 189, 248, 0.7)", size := 40,
        speedMult := 25/10, points := 250 }
  else if rand < 40/100 then
    { defaultProfile sizeRand colorRand with
        type := BubbleType.ARMORED, color := "rgba(100, 116, 139, 0.8)", size := 80,
        health := 3, speedMult := 6/10, points := 400 }
  else
    defaultProfile sizeRand colorRand

/-- heartChance of `createBubble` in App.tsx variant B (line 781):
0.10 when lives == 1, 0.04 otherwise. -/
def heartChance (lives : Int) : Rat :=
  if lives = 1 then 10/100 else 4/100

/-- Threshold chain of `createBubble` in App.tsx variant B (lines 783-791):
identical to `spawnProfile` except that the Heart band uses `heartChance`
and the Heart profile sets size 70, points 50 and a 0.8-alpha color. -/
def spawnProfileB (rand sizeRand colorRand : Rat) (lives : Int) : SpawnProfile :=
  if rand < heartChance lives ∧ lives < MAX_LIVES then
    { defaultProfile sizeRand colorRand with
        type := BubbleType.HEART, color := "rgba(244, 63, 94, 0.8)", size := 70,
        points := 50 }
  else if rand < 12/100 then
    { defaultProfile sizeRand colorRand with
        type := BubbleType.GOLD, color := "rgba(250, 204, 21, 0.7)", size := 50,
        points := 500 }
  else if rand < 25/100 then
    { defaultProfile sizeRand colorRand with
        type := BubbleType.SPEEDY, color := "rgba(56, 189, 248, 0.7)", size := 40,
        speedMult := 25/10, points := 250 }
  else if rand < 40/100 then
    { defaultProfile sizeRand colorRand with
        type := BubbleType.ARMORED, color := "rgba(100, 116, 139, 0.8)", size := 80,
        health := 3, speedMult := 6/10, points := 400 }
  else
    defaultProfile sizeRand colorRand

/-- Body of `createBubble` after the profile has been chosen (App.tsx
lines 185-198): builds the new bubble from the profile and the remaining
random draws, and appends it to the live collection. -/
def createBubble (rand sizeRand colorRand idRand xRand speedRand
    clientWidth clientHeight : Rat) (s : AppState) : AppState :=
  let p := spawnProfile rand sizeRand colorRand s.gameState.lives
  { s with bubbles := s.bubbles ++ [{
      id := idRand,
      x := xRand * (clientWidth - p.size),
      y := clientHeight + p.size,
      size := p.size,
      speed := (speedRand * 2 + 12/10) * (1 + (s.gameState.level : Rat) * (1/10)) * p.speedMult,
      color := p.color,
      points := p.points,
      isPopping := false,
      type := p.type,
      health := p.health,
      maxHealth := p.health }] }

/-- The level formula used on every scoring event:
`Math.floor(newScore / 1200) + 1` (App.tsx line 254, part_002 line 184). -/
def levelOf (score : Nat) : Nat := score / 1200 + 1

/-- A burst of decorative particles as built in part_002's `handlePop`
(lines 175-177 for pops, 190-192 for hits): each particle starts at the
bubble center with velocity components `(random - 0.5) * spread`. The oracle
`rho` supplies the `Math.random()` draws. -/
def burstParticles (rho : Nat → Rat) (cx cy : Rat) (color : String)
    (count : Nat) (spread : Rat) : List Particle :=
  (List.range count).map fun i =>
    { id := rho (3 * i),
      x := cx,
      y := cy,
      vx := (rho (3 * i + 1) - 5/10) * spread,
      vy := (rho (3 * i + 2) - 5/10) * spread,
      color := color,
      life := 1 }

/-- `handlePop` (part_002 lines 163-197; App.tsx variant A lines 218-273 has
the same gameplay-state logic with a cosmetic difference in particle counts
and shake intensity). No-op unless status is PLAYING; no-op if no bubble has
the given id; otherwise decrement that bubble's health, and on reaching 0
remove it, add a particle burst and floating text, and apply the
score/level/lives effects. `rho` supplies the `Math.random()` draws and
`now` stands for `Date.now()`. -/
def handlePop (rho : Nat → Rat) (now : Rat) (id : Rat) (s : AppState) : AppState :=
  if s.gameState.status = GameStatus.PLAYING then
    match s.bubbles.findIdx? (fun b => b.id == id) with
    | none => s
    | some idx =>
      match s.bubbles[idx]? with
      | none => s
      | some b =>
        let newHealth := b.health - 1
        let cx := b.x + b.size / 2
        let cy := b.y + b.size / 2
        if newHealth ≤ 0 then
          let pCount : Nat := if b.type = BubbleType.GOLD then 30 else 15
          let txt := if b.type = BubbleType.HEART then "VIDA +1"
                     else "+" ++ toString b.points
          let clr := if b.type = BubbleType.GOLD then "#facc15" else "#fff"
          { gameState := { s.gameState with
              score := s.gameState.score + b.points,
              level := levelOf (s.gameState.score + b.points),
              lives := min MAX_LIVES (s.gameState.lives +
                (if b.type = BubbleType.HEART then 1 else 0)) },
            bubbles := s.bubbles.filter (fun bb => !(bb.id == id)),
            particles := s.particles ++ burstParticles rho cx cy b.color pCount 15,
            floatingTexts := s.floatingTexts ++
              [{ id := now + rho 100, x := cx, y := cy, text := txt, color := clr,
                 life := 1 }] }
        else
          { s with
              bubbles := s.bubbles.set idx { b with health := newHealth },
              particles := s.particles ++ burstParticles rho cx cy "#fff" 5 8 }
  else s

/-- One bubble advanced by one tick: `y := y - speed` (App.tsx line 285). -/
def moveBubble (b : BubbleData) : BubbleData := { b with y := b.y - b.speed }

/-- The bubbles that exit the top boundary this tick: after advancing,
those with `y < -size` (App.tsx line 286). -/
def missedOf (bs : List BubbleData) : List BubbleData :=
  (bs.map moveBubble).filter (fun b => decide (b.y < -b.size))

/-- `livesToSubtract` of App.tsx variant A's `gameLoop` (line 289): the
number of missed bubbles whose type is neither Heart nor Gold. -/
def livesToSubtractOf (s : AppState) : Nat :=
  ((missedOf s.bubbles).filter
    (fun m => decide (m.type ≠ BubbleType.HEART ∧ m.type ≠ BubbleType.GOLD))).length

/-- Per-tick particle update (App.tsx lines 299-309): drift by velocity,
gravity 0.1 on `vy`, life decays by 0.02, expired particles dropped. -/
def tickParticles (ps : List Particle) : List Particle :=
  (ps.map fun p =>
    { p with x := p.x + p.vx, y := p.y + p.vy, vy := p.vy + 1/10,
             life := p.life - 2/100 }).filter (fun p => decide (p.life > 0))

/-- Per-tick floating-text update (App.tsx lines 311-319): drift up by 1.5,
life decays by 0.015, expired texts dropped. -/
def tickTexts (ts : List FloatingText) : List FloatingText :=
  (ts.map fun t =>
    { t with y := t.y - 15/10, life := t.life - 15/1000 }).filter
    (fun t => decide (t.life > 0))

/-- The entity-update part of App.tsx variant A's `gameLoop`
(lines 275-322, miss resolution at lines 284-297): guard on PLAYING, advance
every bubble, subtract one life per missed non-Heart/non-Gold bubble, clamp
at 0 with a transition to GAMEOVER, keep the surviving bubbles, and advance
particles and floating texts. (The spawn gate, a time-driven call of
`createBubble`, is modelled as the separate `Step.spawn` transition.) -/
def tickA (s : AppState) : AppState :=
  if s.gameState.status = GameStatus.PLAYING then
    let updated := s.bubbles.map moveBubble
    let missed := updated.filter (fun b => decide (b.y < -b.size))
    let gs :=
      if missed.length > 0 then
        let livesToSubtract : Nat :=
          (missed.filter (fun m =>
            decide (m.type ≠ BubbleType.HEART ∧ m.type ≠ BubbleType.GOLD))).length
        let newLives := s.gameState.lives - livesToSubtract
        if newLives ≤ 0 then
          { s.gameState with lives := 0, status := GameStatus.GAMEOVER }
        else
          { s.gameState with lives := max 0 newLives }
      else s.gameState
    { gameState := gs,
      bubbles := updated.filter (fun b => decide (b.y ≥ -b.size)),
      particles := tickParticles s.particles,
      floatingTexts := tickTexts s.floatingTexts }
  else s

/-- The entity-update part of `gameLoop` in part_002 (lines 199-224, miss
resolution at lines 207-218) and App.tsx variant B (lines 844-869): unlike
variant A it tests `missed.some(...)` and subtracts a single life for the
whole tick, however many non-bonus bubbles were missed. -/
def tickB (s : AppState) : AppState :=
  if s.gameState.status = GameStatus.PLAYING then
    let up := s.bubbles.map moveBubble
    let missed := up.filter (fun b => decide (b.y < -b.size))
    let gs :=
      if missed.any (fun m =>
          decide (m.type ≠ BubbleType.HEART ∧ m.type ≠ BubbleType.GOLD)) then
        let nl := s.gameState.lives - 1
        if nl ≤ 0 then
          { s.gameState with lives := 0, status := GameStatus.GAMEOVER }
        else
          { s.gameState with lives := nl }
      else s.gameState
    { gameState := gs,
      bubbles := up.filter (fun b => decide (b.y ≥ -b.size)),
      particles := tickParticles s.particles,
      floatingTexts := tickTexts s.floatingTexts }
  else s

/-- `startGame` (App.tsx lines 130-147): reset score/lives/level, enter
PLAYING, clear the message and all three transient collections; the high
score is retained. (Audio and background generation are external.) -/
def startGame (s : AppState) : AppState :=
  { gameState := { s.gameState with
      score := 0,
      lives := INITIAL_LIVES,
      level := 1,
      status := GameStatus.PLAYING,
      geminiMessage := "" },
    bubbles := [],
    particles := [],
    floatingTexts := [] }

/-- The high-score commit of the GameOver effect (App.tsx lines 327-334):
when the final score beats the stored record, the record becomes the final
score; otherwise it is unchanged. (The `localStorage` write and the
asynchronous feedback request are external.) -/
def processGameOver (s : AppState) : AppState :=
  if s.gameState.score > s.gameState.highScore then
    { s with gameState := { s.gameState with highScore := s.gameState.score } }
  else s

/-- The "back to menu" action (App.tsx line 586): set status to START. -/
def toStart (s : AppState) : AppState :=
  { s with gameState := { s.gameState with status := GameStatus.START } }

/-- The initial component state (App.tsx lines 24-36), with the stored high
score `hs` loaded by the mount effect (App.tsx lines 52-56). -/
def initState (hs : Nat) : AppState :=
  { gameState :=
      { score := 0, lives := INITIAL_LIVES, level := 1,
        status := GameStatus.START, geminiMessage := "", highScore := hs },
    bubbles := [],
    particles := [],
    floatingTexts := [] }

/-- One atomic state change of the App component: a game (re)start, a tap
resolved by `handlePop`, an animation-frame entity update (either
`gameLoop` revision), a spawn, the GameOver high-score commit, or returning
to the menu. Random draws are existentially free parameters. -/
inductive Step : AppState → AppState → Prop where
  | start (s : AppState) : Step s (startGame s)
  | pop (rho : Nat → Rat) (now id : Rat) (s : AppState) :
      Step s (handlePop rho now id s)
  | tick (s : AppState) : Step s (tickA s)
  | tickVariantB (s : AppState) : Step s (tickB s)
  | spawn (rand sizeRand colorRand idRand xRand speedRand w h : Rat)
      (s : AppState) (hs : s.gameState.status = GameStatus.PLAYING) :
      Step s (createBubble rand sizeRand colorRand idRand xRand speedRand w h s)
  | gameOver (s : AppState) : Step s (processGameOver s)
  | menu (s : AppState) : Step s (toStart s)

/-- A state is reachable when some sequence of steps leads to it from the
initial state (for some stored high score). -/
def Reachable (s : AppState) : Prop :=
  ∃ hs, Relation.ReflTransGen Step (initState hs) s

/-- Outcome of the remote Gemini call made by `getGeminiFeedback`
(src/services/geminiService.ts): the request either throws, or yields a
response whose `text` property is absent, empty or a non-empty string. -/
inductive RemoteResult where
  | failure
  | success (text : Option String)

/-- `getGeminiFeedback` (src/services/geminiService.ts lines 6-25): a thrown
error is caught and mapped to a fixed fallback; an absent or empty
`response.text` (falsy in JavaScript) is mapped to the other fallback;
otherwise the text is returned as is. -/
def getGeminiFeedback : RemoteResult → String
  | RemoteResult.failure => "¡Increíble partida! ¿Listo para otra?"
  | RemoteResult.success none => "¡Buen intento! Sigue explotando burbujas."
  | RemoteResult.success (some t) =>
      if t = "" then "¡Buen intento! Sigue explotando burbujas." else t

/-- The four message tiers of the local feedback service
(src/unnamed/part_001 lines 36-61). -/
inductive FeedbackTier where
  | LOW
  | MEDIUM
  | HIGH
  | EPIC
deriving DecidableEq, Repr

/-- FEEDBACK_MESSAGES (src/unnamed/part_001 lines 36-61). -/
def feedbackMessages : FeedbackTier → List String
  | FeedbackTier.LOW =>
      ["¡Ánimo! El océano es grande, sigue practicando.",
       "Unas pocas burbujas se escaparon, ¡pero la próxima será mejor!",
       "Calentando motores... ¡Inténtalo de nuevo!",
       "¡No te rindas! Cada burbuja cuenta."]
  | FeedbackTier.MEDIUM =>
      ["¡Buen ritmo! Estás empezando a dominar las corrientes.",
       "¡Nada mal! Tus reflejos están mejorando notablemente.",
       "¡Sigue así! Estás cerca de convertirte en un experto.",
       "¡Excelente esfuerzo! El puntaje sube como la espuma."]
  | FeedbackTier.HIGH =>
      ["¡Increíble! Eres un verdadero cazador de burbujas.",
       "¡Wow! Tus dedos se mueven más rápido que la luz.",
       "¡Impresionante! Has dejado el océano impecable.",
       "¡Dominio total! Estás en la zona."]
  | FeedbackTier.EPIC =>
      ["¡LEGENDARIO! Las burbujas te temen. Eres el Bubble Master.",
       "¡Récord absoluto! Has alcanzado la maestría suprema.",
       "¡Simplemente perfecto! Eres una leyenda del pop.",
       "¡Dios de las burbujas! Tu nombre será recordado."]

/-- Tier selection of `getLocalFeedback` (src/unnamed/part_001 lines 64-68):
score > 10000 is epic, then > 5000 high, then > 1500 medium, else low. -/
def feedbackTier (score : Nat) : FeedbackTier :=
  if score > 10000 then FeedbackTier.EPIC
  else if score > 5000 then FeedbackTier.HIGH
  else if score > 1500 then FeedbackTier.MEDIUM
  else FeedbackTier.LOW

/-- `getLocalFeedback` (src/unnamed/part_001 lines 63-74): pick the tier by
score, then index its message list by `Math.floor(random * length)`.
The `level` argument is accepted and unused, as in the source. -/
def getLocalFeedback (rand : Rat) (score : Nat) (level : Nat) : String :=
  let messages := feedbackMessages (feedbackTier score)
  let randomIndex := (Int.floor (rand * (messages.length : Rat))).toNat
  messages.getD randomIndex ""

/-! ### Helper lemmas -/

theorem findIdx?_go_append_cons {α : Type} (p : α → Bool) (pre post : List α)
    (b : α) (i : Nat) (hpre : ∀ x ∈ pre, p x = false) (hb : p b = true) :
    (pre ++ b :: post).findIdx? p i = some (i + pre.length) := by
  induction pre generalizing i with
  | nil => simp [List.findIdx?_cons, hb]
  | cons a as ih =>
    have ha : p a = false := hpre a (List.mem_cons_self a as)
    have h2 := ih (i + 1) (fun x hx => hpre x (List.mem_cons_of_mem a hx))
    simp only [List.cons_append, List.findIdx?_cons, ha, Bool.false_eq_true,
      if_false, h2, List.length_cons]
    exact congrArg some (by omega)

theorem findIdx?_append_cons {α : Type} (p : α → Bool) (pre post : List α)
    (b : α) (hpre : ∀ x ∈ pre, p x = false) (hb : p b = true) :
    (pre ++ b :: post).findIdx? p = some pre.length := by
  simpa using findIdx?_go_append_cons p pre post b 0 hpre hb

theorem set_append_cons {α : Type} (pre post : List α) (b b' : α) :
    (pre ++ b :: post).set pre.length b' = pre ++ b' :: post := by
  induction pre with
  | nil => rfl
  | cons a as ih => simp [List.set, ih]

theorem getElem?_append_cons {α : Type} (pre post : List α) (b : α) :
    (pre ++ b :: post)[pre.length]? = some b := by
  rw [List.getElem?_append_right (Nat.le_refl _)]
  simp

theorem filter_not_id_append_cons (pre post : List BubbleData) (b : BubbleData)
    (id : Rat) (hpre : ∀ x ∈ pre, (x.id == id) = false) (hb : (b.id == id) = true)
    (hpost : ∀ x ∈ post, (x.id == id) = false) :
    (pre ++ b :: post).filter (fun x => !(x.id == id)) = pre ++ post := by
  induction pre with
  | nil =>
    simp only [List.nil_append, List.filter_cons, hb]
    exact List.filter_eq_self.mpr (fun x hx => by simp [hpost x hx])
  | cons a as ih =>
    have ha : (a.id == id) = false := hpre a (List.mem_cons_self a as)
    simp only [List.cons_append, List.filter_cons, ha, Bool.not_false, if_true]
    exact congrArg (a :: ·) (ih (fun x hx => hpre x (List.mem_cons_of_mem a hx)))

theorem handlePop_not_playing (rho : Nat → Rat) (now id : Rat) (s : AppState)
    (h : s.gameState.status ≠ GameStatus.PLAYING) :
    handlePop rho now id s = s := by
  simp [handlePop, h]

theorem handlePop_not_found (rho : Nat → Rat) (now id : Rat) (s : AppState)
    (h : ∀ b ∈ s.bubbles, (b.id == id) = false) :
    handlePop rho now id s = s := by
  unfold handlePop
  rw [List.findIdx?_eq_none_iff.mpr h]
  split <;> rfl

theorem handlePop_hit (rho : Nat → Rat) (now id : Rat) (s : AppState)
    (idx : Nat) (b : BubbleData)
    (hst : s.gameState.status = GameStatus.PLAYING)
    (hidx : s.bubbles.findIdx? (fun x => x.id == id) = some idx)
    (hget : s.bubbles[idx]? = some b)
    (hh : ¬ b.health - 1 ≤ 0) :
    (handlePop rho now id s).gameState = s.gameState ∧
    (handlePop rho now id s).bubbles = s.bubbles.set idx { b with health := b.health - 1 } ∧
    (handlePop rho now id s).floatingTexts = s.floatingTexts := by
  simp only [handlePop, hst, hidx, hget, hh, if_true, if_false, reduceIte]
  exact ⟨trivial, trivial, trivial⟩

theorem handlePop_destroy (rho : Nat → Rat) (now id : Rat) (s : AppState)
    (idx : Nat) (b : BubbleData)
    (hst : s.gameState.status = GameStatus.PLAYING)
    (hidx : s.bubbles.findIdx? (fun x => x.id == id) = some idx)
    (hget : s.bubbles[idx]? = some b)
    (hh : b.health - 1 ≤ 0) :
    (handlePop rho now id s).gameState = { s.gameState with
        score := s.gameState.score + b.points,
        level := levelOf (s.gameState.score + b.points),
        lives := min MAX_LIVES (s.gameState.lives +
          (if b.type = BubbleType.HEART then 1 else 0)) } ∧
    (handlePop rho now id s).bubbles = s.bubbles.filter (fun bb => !(bb.id == id)) := by
  simp only [handlePop, hst, hidx, hget, hh, if_true, if_false, reduceIte]
  exact ⟨trivial, trivial⟩

/-- The bound on `lives` maintained by every operation (spec §8). -/
def LivesInv (s : AppState) : Prop :=
  0 ≤ s.gameState.lives ∧ s.gameState.lives ≤ MAX_LIVES

theorem livesInv_startGame (s : AppState) : LivesInv (startGame s) := by
  constructor <;> simp [startGame, INITIAL_LIVES, MAX_LIVES]

theorem handlePop_lives (rho : Nat → Rat) (now id : Rat) (s : AppState) :
    (handlePop rho now id s).gameState.lives = s.gameState.lives ∨
    ∃ e : Int, 0 ≤ e ∧ (handlePop rho now id s).gameState.lives
      = min MAX_LIVES (s.gameState.lives + e) := by
  unfold handlePop
  split
  · split
    · left; rfl
    · split
      · left; rfl
      · rename_i b heq
        by_cases hh : b.health - 1 ≤ 0
        · right
          refine ⟨if b.type = BubbleType.HEART then 1 else 0, by split <;> norm_num, ?_⟩
          simp only [hh, if_true, reduceIte]
        · left
          simp only [hh, if_false, reduceIte]
  · left; rfl

theorem livesInv_handlePop (rho : Nat → Rat) (now id : Rat) (s : AppState)
    (h : LivesInv s) : LivesInv (handlePop rho now id s) := by
  obtain ⟨h0, h1⟩ := h
  rcases handlePop_lives rho now id s with heq | ⟨e, he, heq⟩ <;>
    rw [LivesInv, heq, MAX_LIVES] <;> rw [MAX_LIVES] at h1 <;> constructor <;> omega

theorem livesInv_tickA (s : AppState) (h : LivesInv s) : LivesInv (tickA s) := by
  obtain ⟨h0, h1⟩ := h
  rw [LivesInv]
  simp only [tickA]
  split
  · split
    · split <;> constructor <;> simp <;> omega
    · exact ⟨h0, h1⟩
  · exact ⟨h0, h1⟩

theorem livesInv_tickB (s : AppState) (h : LivesInv s) : LivesInv (tickB s) := by
  obtain ⟨h0, h1⟩ := h
  rw [LivesInv]
  simp only [tickB]
  split
  · split
    · split <;> constructor <;> simp <;> omega
    · exact ⟨h0, h1⟩
  · exact ⟨h0, h1⟩

theorem livesInv_step {s t : AppState} (st : Step s t) (h : LivesInv s) :
    LivesInv t := by
  cases st with
  | start s => exact livesInv_startGame s
  | pop rho now id s => exact livesInv_handlePop rho now id s h
  | tick s => exact livesInv_tickA s h
  | tickVariantB s => exact livesInv_tickB s h
  | spawn rand sizeRand colorRand idRand xRand speedRand w hh s hs => exact h
  | gameOver s =>
      obtain ⟨h0, h1⟩ := h
      unfold processGameOver
      split <;> exact ⟨h0, h1⟩
  | menu s => exact h

theorem livesInv_reachable (s : AppState) (h : Reachable s) : LivesInv s := by
  obtain ⟨hs, hr⟩ := h
  induction hr with
  | refl => constructor <;> simp [initState, INITIAL_LIVES, MAX_LIVES]
  | tail _ hstep ih => exact livesInv_step hstep ih

theorem getD_floor_mem (l : List String) (hl : l ≠ []) (rand : Rat)
    (h0 : 0 ≤ rand) (h1 : rand < 1) :
    l.getD (Int.floor (rand * (l.length : Rat))).toNat "" ∈ l := by
  have hlen : 0 < l.length := List.length_pos.mpr hl
  have hlen' : (0 : Rat) < (l.length : Rat) := by exact_mod_cast hlen
  have hmul : rand * (l.length : Rat) < (l.length : Rat) := by
    calc rand * (l.length : Rat) < 1 * (l.length : Rat) :=
          mul_lt_mul_of_pos_right h1 hlen'
    _ = (l.length : Rat) := one_mul _
  have hfl : Int.floor (rand * (l.length : Rat)) < (l.length : Int) :=
    Int.floor_lt.mpr (by exact_mod_cast hmul)
  have hnn : (0 : Int) ≤ Int.floor (rand * (l.length : Rat)) :=
    Int.floor_nonneg.mpr (mul_nonneg h0 (le_of_lt hlen'))
  have hidx : (Int.floor (rand * (l.length : Rat))).toNat < l.length := by
    rw [Int.toNat_lt hnn]; exact_mod_cast hfl
  rw [List.getD_eq_getElem l "" hidx]
  exact List.getElem_mem hidx

theorem tickA_gameState (s : AppState)
    (hst : s.gameState.status = GameStatus.PLAYING) :
    (tickA s).gameState =
      (if (missedOf s.bubbles).length > 0 then
        (if s.gameState.lives - (livesToSubtractOf s : Int) ≤ 0 then
          { s.gameState with lives := 0, status := GameStatus.GAMEOVER }
         else
          { s.gameState with
              lives := max 0 (s.gameState.lives - (livesToSubtractOf s : Int)) })
       else s.gameState) := by
  unfold tickA livesToSubtractOf missedOf
  rw [if_pos hst]

theorem tickB_gameState (s : AppState)
    (hst : s.gameState.status = GameStatus.PLAYING) :
    (tickB s).gameState =
      (if (missedOf s.bubbles).any (fun m =>
            decide (m.type ≠ BubbleType.HEART ∧ m.type ≠ BubbleType.GOLD)) then
        (if s.gameState.lives - 1 ≤ 0 then
          { s.gameState with lives := 0, status := GameStatus.GAMEOVER }
         else { s.gameState with lives := s.gameState.lives - 1 })
       else s.gameState) := by
  unfold tickB missedOf
  rw [if_pos hst]

/-! ### Claim theorems -/

/-- C5 counterexample: in the main `createBubble` (App.tsx lines 161-164 and
part_002 lines 143-145), the draw 0.045 with lives = 3 produces a Heart
bubble even though 0.045 is not below heartChance 3 = 0.04 — so the claim
that a Heart appears exactly when the draw is below the lives-dependent
heartChance is false of that revision. -/
theorem C5_cex :
    (spawnProfile (45/1000) 0 0 3).type = BubbleType.HEART ∧
    ¬ ((45/1000 : Rat) < heartChance 3) := by
  constructor
  · norm_num [spawnProfile, defaultProfile, MAX_LIVES]
  · norm_num [heartChance]

/-- C5 (amended): in the main `createBubble` (App.tsx variant A and
part_002) a Heart bubble is produced exactly when the draw is below the
flat threshold 0.05 and lives < MAX_LIVES; only App.tsx variant B's
`createBubble` uses the lives-dependent `heartChance` (0.04 normally,
0.10 when lives == 1) together with the same guard. -/
theorem C5_heart_band (r sizeRand colorRand : Rat) (lives : Int) :
    ((spawnProfile r sizeRand colorRand lives).type = BubbleType.HEART ↔
      (r < 5/100 ∧ lives < MAX_LIVES)) ∧
    ((spawnProfileB r sizeRand colorRand lives).type = BubbleType.HEART ↔
      (r < heartChance lives ∧ lives < MAX_LIVES)) := by
  constructor
  · unfold spawnProfile
    split_ifs with h1 h2 h3 h4 <;> simp_all [defaultProfile]
  · unfold spawnProfileB
    split_ifs with h1 h2 h3 h4 <;> simp_all [defaultProfile]

/-- C6: the `GameStatus` enum declared in the types module has exactly the
three members START, PLAYING and GAMEOVER; in particular no member is
PAUSED or TUTORIAL, although other revisions in the repository reference
`GameStatus.PAUSED` and `GameStatus.TUTORIAL`. -/
theorem C6_gameStatus_three_members :
    allStatuses.map statusName = ["START", "PLAYING", "GAMEOVER"] ∧
    (∀ st : GameStatus, st ∈ allStatuses) ∧
    allStatuses.length = 3 ∧
    (∀ st : GameStatus, statusName st ≠ "PAUSED" ∧ statusName st ≠ "TUTORIAL") := by
  refine ⟨rfl, ?_, rfl, ?_⟩
  · intro st; cases st <;> simp [allStatuses]
  · intro st; cases st <;> exact ⟨by decide, by decide⟩

/-- C7: when the Heart guard fails because lives == MAX_LIVES, the same
draw falls through to the next threshold bands, so a draw below 0.12
yields a Gold bubble — in both revisions of `createBubble`. -/
theorem C7_fallthrough_gold (r sizeRand colorRand : Rat) (lives : Int)
    (hmax : lives = MAX_LIVES) (hr : r < 12/100) :
    (spawnProfile r sizeRand colorRand lives).type = BubbleType.GOLD ∧
    (spawnProfileB r sizeRand colorRand lives).type = BubbleType.GOLD := by
  subst hmax
  constructor
  · unfold spawnProfile
    rw [if_neg (by simp), if_pos hr]
  · unfold spawnProfileB
    rw [if_neg (by simp), if_pos hr]

/-- C7 witness: the draw 0.04 (inside every Heart band) at lives ==
MAX_LIVES yields Gold in both revisions. -/
theorem C7_witness :
    (spawnProfile (4/100) 0 0 MAX_LIVES).type = BubbleType.GOLD ∧
    (spawnProfileB (4/100) 0 0 MAX_LIVES).type = BubbleType.GOLD :=
  C7_fallthrough_gold (4/100) 0 0 MAX_LIVES rfl (by norm_num)

/-- C8: restarting after GameOver (the GameOver effect's high-score commit
followed by `startGame`) empties all three transient collections, resets
score to 0, lives to INITIAL_LIVES and level to 1, and the stored high
score becomes the prior final score when it beat the previous record and
stays the previous record otherwise. -/
theorem C8_restart_roundtrip (s : AppState) :
    (startGame (processGameOver s)).bubbles = [] ∧
    (startGame (processGameOver s)).particles = [] ∧
    (startGame (processGameOver s)).floatingTexts = [] ∧
    (startGame (processGameOver s)).gameState.score = 0 ∧
    (startGame (processGameOver s)).gameState.lives = INITIAL_LIVES ∧
    (startGame (processGameOver s)).gameState.level = 1 ∧
    (startGame (processGameOver s)).gameState.highScore =
      (if s.gameState.score > s.gameState.highScore then s.gameState.score
       else s.gameState.highScore) := by
  by_cases h : s.gameState.score > s.gameState.highScore <;>
    simp [processGameOver, startGame, h]

/-- C9: the remote feedback service maps a thrown error to a fixed fallback
and never resolves to an empty message; the local variant selects its tier
by the thresholds score > 10000 (epic), > 5000 (high), > 1500 (medium),
else low, and always returns one of the selected tier's messages. -/
theorem C9_feedback_total_and_tiered :
    (getGeminiFeedback RemoteResult.failure = "¡Increíble partida! ¿Listo para otra?") ∧
    (∀ rr : RemoteResult, getGeminiFeedback rr ≠ "") ∧
    (∀ score : Nat,
      (feedbackTier score = FeedbackTier.EPIC ↔ 10000 < score) ∧
      (feedbackTier score = FeedbackTier.HIGH ↔ 5000 < score ∧ score ≤ 10000) ∧
      (feedbackTier score = FeedbackTier.MEDIUM ↔ 1500 < score ∧ score ≤ 5000) ∧
      (feedbackTier score = FeedbackTier.LOW ↔ score ≤ 1500)) ∧
    (∀ (rand : Rat) (score level : Nat), 0 ≤ rand → rand < 1 →
      getLocalFeedback rand score level ∈ feedbackMessages (feedbackTier score)) := by
  refine ⟨rfl, ?_, ?_, ?_⟩
  · intro rr
    match rr with
    | RemoteResult.failure => decide
    | RemoteResult.success none => decide
    | RemoteResult.success (some t) =>
      simp only [getGeminiFeedback]
      split
      · decide
      · rename_i h; exact h
  · intro score
    refine ⟨?_, ?_, ?_, ?_⟩ <;>
      · unfold feedbackTier
        split_ifs with h1 h2 h3 <;> simp <;> omega
  · intro rand score level h0 h1
    simp only [getLocalFeedback]
    exact getD_floor_mem _ (by cases feedbackTier score <;> simp [feedbackMessages])
      rand h0 h1

/-- C9 witness: a failure resolves to a non-empty fallback, score 2000 is
in the medium tier, and a concrete local lookup lands in that tier's list. -/
theorem C9_witness :
    getGeminiFeedback RemoteResult.failure ≠ "" ∧
    (feedbackTier 2000 = FeedbackTier.MEDIUM ↔ 1500 < 2000 ∧ 2000 ≤ 5000) ∧
    getLocalFeedback 0 2000 1 ∈ feedbackMessages (feedbackTier 2000) :=
  ⟨C9_feedback_total_and_tiered.2.1 RemoteResult.failure,
   (C9_feedback_total_and_tiered.2.2.1 2000).2.2.1,
   C9_feedback_total_and_tiered.2.2.2 0 2000 1 (by norm_num) (by norm_num)⟩

/-- C2: after every scoring event (a pop that destroys a bubble), level
equals floor(score / 1200) + 1 for the updated score; the level formula is
monotone in the score, and equal scores give equal levels. -/
theorem C2_level_function_of_score :
    (∀ (rho : Nat → Rat) (now id : Rat) (s : AppState) (idx : Nat) (b : BubbleData),
      s.gameState.status = GameStatus.PLAYING →
      s.bubbles.findIdx? (fun x => x.id == id) = some idx →
      s.bubbles[idx]? = some b →
      b.health - 1 ≤ 0 →
      (handlePop rho now id s).gameState.level =
        levelOf ((handlePop rho now id s).gameState.score)) ∧
    (∀ a b : Nat, a ≤ b → levelOf a ≤ levelOf b) ∧
    (∀ a b : Nat, a = b → levelOf a = levelOf b) := by
  refine ⟨?_, ?_, ?_⟩
  · intro rho now id s idx b hst hidx hget hh
    obtain ⟨hgs, -⟩ := handlePop_destroy rho now id s idx b hst hidx hget hh
    rw [hgs]
  · intro a b h
    simp only [levelOf]
    exact Nat.add_le_add_right (Nat.div_le_div_right h) 1
  · intro a b h
    rw [h]

/-- A playing GameState with the given lives, used by concrete witnesses. -/
def demoGameState (lv : Int) : GameState :=
  { score := 0, lives := lv, level := 1, status := GameStatus.PLAYING,
    geminiMessage := "", highScore := 0 }

/-- A standard bubble that will cross the top boundary on the next tick
(after moving, y = -20 < -size = -10), used by concrete witnesses. -/
def demoMissBubble (idv : Rat) : BubbleData :=
  { id := idv, x := 0, y := 0, size := 10, speed := 20, color := "",
    points := 100, isPopping := false, type := BubbleType.STANDARD,
    health := 1, maxHealth := 1 }

/-- Concrete state for the C2 witness: score 1100, one standard bubble worth
200 points (the spec §8 scenario: popping it must give level 2). -/
def c2State : AppState :=
  { gameState := { demoGameState 3 with score := 1100 },
    bubbles :=
      [{ id := 1, x := 0, y := 0, size := 10, speed := 1, color := "",
         points := 200, isPopping := false, type := BubbleType.STANDARD,
         health := 1, maxHealth := 1 }],
    particles := [], floatingTexts := [] }

/-- C2 witness: on a concrete destroying pop the level equals the level
formula of the new score, and the formula is monotone and score-determined
at concrete points. -/
theorem C2_witness :
    (handlePop (fun _ => 0) 0 1 c2State).gameState.level =
      levelOf ((handlePop (fun _ => 0) 0 1 c2State).gameState.score) ∧
    levelOf 100 ≤ levelOf 1300 ∧
    levelOf 700 = levelOf 700 :=
  ⟨C2_level_function_of_score.1 (fun _ => 0) 0 1 c2State 0 (c2State.bubbles.get ⟨0, by decide⟩)
      (by decide) (by decide) (by decide) (by decide),
   C2_level_function_of_score.2.1 100 1300 (by norm_num),
   C2_level_function_of_score.2.2 700 700 rfl⟩

/-- C10: a pop during Playing on a bubble whose health is above 1 leaves the
game state (score, level, lives, status) unchanged and changes the bubble
collection only by lowering that one bubble's health by exactly 1 — same
length, the popped index holds the same bubble with health - 1 (id,
position, size, speed, color, points, type and maxHealth unchanged), and
every other index is untouched. -/
theorem C10_hit_frame_effect (rho : Nat → Rat) (now id : Rat) (s : AppState)
    (idx : Nat) (b : BubbleData)
    (hst : s.gameState.status = GameStatus.PLAYING)
    (hidx : s.bubbles.findIdx? (fun x => x.id == id) = some idx)
    (hget : s.bubbles[idx]? = some b)
    (hh : 1 < b.health) :
    (handlePop rho now id s).gameState = s.gameState ∧
    (handlePop rho now id s).bubbles.length = s.bubbles.length ∧
    ((handlePop rho now id s).bubbles)[idx]? =
      some { b with health := b.health - 1 } ∧
    (∀ j : Nat, j ≠ idx → ((handlePop rho now id s).bubbles)[j]? = s.bubbles[j]?) := by
  have hh' : ¬ b.health - 1 ≤ 0 := by omega
  obtain ⟨hgs, hbub, -⟩ := handlePop_hit rho now id s idx b hst hidx hget hh'
  have hlt : idx < s.bubbles.length := (List.getElem?_eq_some.mp hget).1
  refine ⟨hgs, ?_, ?_, ?_⟩
  · rw [hbub, List.length_set]
  · rw [hbub, List.getElem?_set_self hlt]
  · intro j hj
    rw [hbub, List.getElem?_set, if_neg (Ne.symm hj)]

/-- Concrete state for the C10 witness: an armored bubble at full health. -/
def c10State : AppState :=
  { gameState := demoGameState 3,
    bubbles :=
      [{ id := 2, x := 1, y := 2, size := 80, speed := 1, color := "c",
         points := 400, isPopping := false, type := BubbleType.ARMORED,
         health := 3, maxHealth := 3 }],
    particles := [], floatingTexts := [] }

/-- C10 witness: popping the armored bubble once only lowers its health. -/
theorem C10_witness :
    (handlePop (fun _ => 0) 0 2 c10State).gameState = c10State.gameState ∧
    (handlePop (fun _ => 0) 0 2 c10State).bubbles.length = c10State.bubbles.length ∧
    ((handlePop (fun _ => 0) 0 2 c10State).bubbles)[0]? =
      some { c10State.bubbles.get ⟨0, by decide⟩ with
              health := (c10State.bubbles.get ⟨0, by decide⟩).health - 1 } ∧
    (∀ j : Nat, j ≠ 0 →
      ((handlePop (fun _ => 0) 0 2 c10State).bubbles)[j]? = c10State.bubbles[j]?) :=
  C10_hit_frame_effect (fun _ => 0) 0 2 c10State 0 (c10State.bubbles.get ⟨0, by decide⟩)
    (by decide) (by decide) (by decide) (by decide)

/-- C4: a pop while the status is not Playing is a no-op on the whole state;
a pop whose id matches no live bubble is a no-op on the whole state; and an
Armored bubble popped with health 3 survives the first two pops (health 2,
then 1), is removed from the live collection exactly by the 3rd pop, and a
4th pop with the same id leaves the whole state unchanged. -/
theorem C4_armored_three_pops :
    (∀ (rho : Nat → Rat) (now id : Rat) (s : AppState),
      s.gameState.status ≠ GameStatus.PLAYING → handlePop rho now id s = s) ∧
    (∀ (rho : Nat → Rat) (now id : Rat) (s : AppState),
      (∀ b ∈ s.bubbles, (b.id == id) = false) → handlePop rho now id s = s) ∧
    (∀ (rho1 rho2 rho3 rho4 : Nat → Rat) (n1 n2 n3 n4 id : Rat) (s : AppState)
      (pre post : List BubbleData) (b : BubbleData),
      s.gameState.status = GameStatus.PLAYING →
      s.bubbles = pre ++ b :: post →
      (∀ x ∈ pre, (x.id == id) = false) →
      (b.id == id) = true →
      (∀ x ∈ post, (x.id == id) = false) →
      b.health = 3 →
      ((handlePop rho1 n1 id s).bubbles = pre ++ { b with health := 2 } :: post ∧
       (handlePop rho2 n2 id (handlePop rho1 n1 id s)).bubbles =
         pre ++ { b with health := 1 } :: post ∧
       (handlePop rho3 n3 id (handlePop rho2 n2 id (handlePop rho1 n1 id s))).bubbles =
         pre ++ post ∧
       (∀ x ∈ (handlePop rho3 n3 id (handlePop rho2 n2 id
          (handlePop rho1 n1 id s))).bubbles, (x.id == id) = false) ∧
       handlePop rho4 n4 id (handlePop rho3 n3 id (handlePop rho2 n2 id
          (handlePop rho1 n1 id s))) =
         handlePop rho3 n3 id (handlePop rho2 n2 id (handlePop rho1 n1 id s)))) := by
  refine ⟨handlePop_not_playing, handlePop_not_found, ?_⟩
  intro rho1 rho2 rho3 rho4 n1 n2 n3 n4 id s pre post b hst hb hpre hbid hpost hh3
  have hidx1 : s.bubbles.findIdx? (fun x => x.id == id) = some pre.length := by
    rw [hb]; exact findIdx?_append_cons _ pre post b hpre hbid
  have hget1 : s.bubbles[pre.length]? = some b := by
    rw [hb]; exact getElem?_append_cons pre post b
  have hno1 : ¬ b.health - 1 ≤ 0 := by omega
  obtain ⟨hgs1, hbub1, -⟩ := handlePop_hit rho1 n1 id s pre.length b hst hidx1 hget1 hno1
  have hb2eq : ({ b with health := b.health - 1 } : BubbleData) = { b with health := 2 } := by
    rw [hh3]; norm_num
  have e1 : (handlePop rho1 n1 id s).bubbles = pre ++ { b with health := 2 } :: post := by
    rw [hbub1, hb, set_append_cons, hb2eq]
  set s1 := handlePop rho1 n1 id s with hs1
  set b2 : BubbleData := { b with health := 2 } with hb2
  have hst1 : s1.gameState.status = GameStatus.PLAYING := by rw [hgs1]; exact hst
  have hbid2 : (b2.id == id) = true := hbid
  have hidx2 : s1.bubbles.findIdx? (fun x => x.id == id) = some pre.length := by
    rw [e1]; exact findIdx?_append_cons _ pre post b2 hpre hbid2
  have hget2 : s1.bubbles[pre.length]? = some b2 := by
    rw [e1]; exact getElem?_append_cons pre post b2
  have hb2h : b2.health = 2 := rfl
  have hno2 : ¬ b2.health - 1 ≤ 0 := by omega
  obtain ⟨hgs2, hbub2, -⟩ := handlePop_hit rho2 n2 id s1 pre.length b2 hst1 hidx2 hget2 hno2
  have e2 : (handlePop rho2 n2 id s1).bubbles = pre ++ { b with health := 1 } :: post := by
    rw [hbub2, e1, set_append_cons]
    simp [hb2]
  set s2 := handlePop rho2 n2 id s1 with hs2
  set b3 : BubbleData := { b with health := 1 } with hb3
  have hst2 : s2.gameState.status = GameStatus.PLAYING := by rw [hgs2]; exact hst1
  have hbid3 : (b3.id == id) = true := hbid
  have hidx3 : s2.bubbles.findIdx? (fun x => x.id == id) = some pre.length := by
    rw [e2]; exact findIdx?_append_cons _ pre post b3 hpre hbid3
  have hget3 : s2.bubbles[pre.length]? = some b3 := by
    rw [e2]; exact getElem?_append_cons pre post b3
  have hb3h : b3.health = 1 := rfl
  have hyes3 : b3.health - 1 ≤ 0 := by omega
  obtain ⟨-, hbub3⟩ := handlePop_destroy rho3 n3 id s2 pre.length b3 hst2 hidx3 hget3 hyes3
  have e3 : (handlePop rho3 n3 id s2).bubbles = pre ++ post := by
    rw [hbub3, e2]
    exact filter_not_id_append_cons pre post b3 id hpre hbid3 hpost
  have hmem3 : ∀ x ∈ (handlePop rho3 n3 id s2).bubbles, (x.id == id) = false := by
    rw [e3]
    intro x hx
    rcases List.mem_append.mp hx with h | h
    exacts [hpre x h, hpost x h]
  have e4 : handlePop rho4 n4 id (handlePop rho3 n3 id s2) = handlePop rho3 n3 id s2 :=
    handlePop_not_found rho4 n4 id _ hmem3
  exact ⟨e1, e2, e3, hmem3, e4⟩

/-- Concrete state for the C4 witness: one armored bubble, id 7, health 3. -/
def c4Bubble : BubbleData :=
  { id := 7, x := 0, y := 0, size := 80, speed := 1, color := "",
    points := 400, isPopping := false, type := BubbleType.ARMORED,
    health := 3, maxHealth := 3 }

/-- Concrete state for the C4 witness. -/
def c4State : AppState :=
  { gameState := demoGameState 3, bubbles := [c4Bubble],
    particles := [], floatingTexts := [] }

/-- Concrete state for the C1 counterexample: two standard bubbles that
both cross the top boundary on the next tick, with 3 lives. -/
def c1CexState : AppState :=
  { gameState := demoGameState 3,
    bubbles := [demoMissBubble 1, demoMissBubble 2],
    particles := [], floatingTexts := [] }

/-- C1 counterexample: in the part_002 / variant-B `gameLoop`, a tick in
which two non-bonus bubbles exit the top decrements lives by 1, not by 2 —
so "lives is decremented by exactly n (one per missed non-bonus bubble)"
is false of that revision of the simulation step. -/
theorem C1_cex :
    c1CexState.gameState.lives = 3 ∧
    livesToSubtractOf c1CexState = 2 ∧
    (tickB c1CexState).gameState.lives = 2 ∧
    (tickB c1CexState).gameState.lives ≠
      c1CexState.gameState.lives - livesToSubtractOf c1CexState := by
  have hk : livesToSubtractOf c1CexState = 2 := by
    norm_num [livesToSubtractOf, missedOf, moveBubble, demoMissBubble, c1CexState,
      List.filter_cons, List.filter_nil, List.map_cons, List.map_nil,
      decide_eq_true_eq]
    decide
  have hlv : (tickB c1CexState).gameState.lives = 2 := by
    rw [tickB_gameState c1CexState rfl]
    norm_num [missedOf, moveBubble, demoMissBubble, c1CexState, demoGameState,
      List.filter_cons, List.filter_nil, List.map_cons, List.map_nil,
      List.any_cons, List.any_nil, decide_eq_true_eq]
    decide
  refine ⟨rfl, hk, hlv, ?_⟩
  rw [hlv, hk]
  norm_num [c1CexState, demoGameState]

/-- C1 (amended): in App.tsx variant A's `gameLoop` a tick in which n
non-Heart/Gold bubbles exit the top decrements lives by exactly n (stated
here for n < lives; C3 covers the clamped game-over case); a tick whose
missed bubbles are all Heart or Gold never decrements lives, in either
revision; but in the part_002 / variant-B `gameLoop` a tick with at least
one missed non-bonus bubble decrements lives by exactly 1, however many
such bubbles were missed. -/
theorem C1_miss_resolution :
    (∀ s : AppState, s.gameState.status = GameStatus.PLAYING →
      (livesToSubtractOf s : Int) < s.gameState.lives →
      (tickA s).gameState.lives = s.gameState.lives - livesToSubtractOf s) ∧
    (∀ s : AppState, s.gameState.status = GameStatus.PLAYING →
      livesToSubtractOf s = 0 → 0 < s.gameState.lives →
      (tickA s).gameState.lives = s.gameState.lives ∧
      (tickB s).gameState.lives = s.gameState.lives) ∧
    (∀ s : AppState, s.gameState.status = GameStatus.PLAYING →
      0 < livesToSubtractOf s → 1 < s.gameState.lives →
      (tickB s).gameState.lives = s.gameState.lives - 1) := by
  refine ⟨?_, ?_, ?_⟩
  · intro s hst hk
    rw [tickA_gameState s hst]
    by_cases hm : (missedOf s.bubbles).length > 0
    · rw [if_pos hm, if_neg (by omega)]
      show max 0 (s.gameState.lives - (livesToSubtractOf s : Int)) =
        s.gameState.lives - (livesToSubtractOf s : Int)
      omega
    · rw [if_neg hm]
      have hk0 : livesToSubtractOf s ≤ (missedOf s.bubbles).length :=
        List.length_filter_le _ _
      show s.gameState.lives = s.gameState.lives - (livesToSubtractOf s : Int)
      omega
  · intro s hst hk0 hpos
    constructor
    · rw [tickA_gameState s hst]
      by_cases hm : (missedOf s.bubbles).length > 0
      · rw [if_pos hm, if_neg (by omega)]
        show max 0 (s.gameState.lives - (livesToSubtractOf s : Int)) = s.gameState.lives
        omega
      · rw [if_neg hm]
    · rw [tickB_gameState s hst]
      have hnil : (missedOf s.bubbles).filter
          (fun m => decide (m.type ≠ BubbleType.HEART ∧ m.type ≠ BubbleType.GOLD)) = [] :=
        List.length_eq_zero.mp hk0
      have hall : ∀ x ∈ missedOf s.bubbles,
          ¬ (decide (x.type ≠ BubbleType.HEART ∧ x.type ≠ BubbleType.GOLD)) = true := by
        intro x hx hq
        have hmem : x ∈ ([] : List BubbleData) := hnil ▸ List.mem_filter.mpr ⟨hx, hq⟩
        exact absurd hmem (List.not_mem_nil x)
      have hfalse : (missedOf s.bubbles).any
          (fun m => decide (m.type ≠ BubbleType.HEART ∧ m.type ≠ BubbleType.GOLD)) = false :=
        List.any_eq_false.mpr hall
      rw [if_neg (by rw [hfalse]; exact Bool.false_ne_true)]
  · intro s hst hkpos hlives
    obtain ⟨x, hx⟩ := List.exists_mem_of_ne_nil _ (List.length_pos.mp hkpos)
    obtain ⟨hxm, hxq⟩ := List.mem_filter.mp hx
    rw [tickB_gameState s hst, if_pos (List.any_eq_true.mpr ⟨x, hxm, hxq⟩),
      if_neg (by omega)]

/-- Concrete state for the C1 witness: one standard bubble about to exit
the top boundary, with 3 lives. -/
def c1WitState : AppState :=
  { gameState := demoGameState 3,
    bubbles := [demoMissBubble 1],
    particles := [], floatingTexts := [] }

/-- C1 witness: on the concrete state the variant-A tick subtracts exactly
the number of missed non-bonus bubbles. -/
theorem C1_witness :
    (tickA c1WitState).gameState.lives =
      c1WitState.gameState.lives - livesToSubtractOf c1WitState :=
  C1_miss_resolution.1 c1WitState rfl (by
    norm_num [livesToSubtractOf, missedOf, moveBubble, demoMissBubble, c1WitState,
      demoGameState, List.filter_cons, List.filter_nil, List.map_cons, List.map_nil,
      decide_eq_true_eq]
    decide)

/-- C3: every reachable state keeps lives between 0 and MAX_LIVES; popping a
Heart bubble at lives == MAX_LIVES leaves lives at MAX_LIVES; and the
variant-A tick whose miss-resolution pass would drive lives to 0 or below
sets lives to exactly 0 and the status to GAMEOVER. -/
theorem C3_lives_bounds :
    (∀ s : AppState, Reachable s →
      0 ≤ s.gameState.lives ∧ s.gameState.lives ≤ MAX_LIVES) ∧
    (∀ (rho : Nat → Rat) (now id : Rat) (s : AppState) (idx : Nat) (b : BubbleData),
      s.gameState.status = GameStatus.PLAYING →
      s.bubbles.findIdx? (fun x => x.id == id) = some idx →
      s.bubbles[idx]? = some b →
      b.type = BubbleType.HEART → b.health = 1 →
      s.gameState.lives = MAX_LIVES →
      (handlePop rho now id s).gameState.lives = MAX_LIVES) ∧
    (∀ s : AppState, s.gameState.status = GameStatus.PLAYING →
      0 < livesToSubtractOf s →
      s.gameState.lives ≤ (livesToSubtractOf s : Int) →
      (tickA s).gameState.lives = 0 ∧
      (tickA s).gameState.status = GameStatus.GAMEOVER) := by
  refine ⟨?_, ?_, ?_⟩
  · exact fun s h => livesInv_reachable s h
  · intro rho now id s idx b hst hidx hget hht hhp hlv
    obtain ⟨hgs, -⟩ := handlePop_destroy rho now id s idx b hst hidx hget (by omega)
    rw [hgs]
    show min MAX_LIVES (s.gameState.lives +
      (if b.type = BubbleType.HEART then 1 else 0)) = MAX_LIVES
    rw [hht, if_pos rfl, hlv]
    have h5 : MAX_LIVES = (5 : Int) := rfl
    rw [h5]
    omega
  · intro s hst hkpos hkge
    have hm : (missedOf s.bubbles).length > 0 :=
      lt_of_lt_of_le hkpos (List.length_filter_le _ _)
    constructor
    · rw [tickA_gameState s hst, if_pos hm, if_pos (by omega)]
    · rw [tickA_gameState s hst, if_pos hm, if_pos (by omega)]

/-- Concrete state for the C3 witness: a Heart bubble at full lives. -/
def c3HeartState : AppState :=
  { gameState := demoGameState 5,
    bubbles :=
      [{ id := 5, x := 0, y := 0, size := 60, speed := 1, color := "",
         points := 100, isPopping := false, type := BubbleType.HEART,
         health := 1, maxHealth := 1 }],
    particles := [], floatingTexts := [] }

/-- Concrete state for the C3 witness: 2 lives, 2 missed standard bubbles. -/
def c3TickState : AppState :=
  { gameState := demoGameState 2,
    bubbles := [demoMissBubble 1, demoMissBubble 2],
    particles := [], floatingTexts := [] }

/-- C3 witness: the initial state satisfies the lives bounds, a concrete
Heart pop at full lives stays at MAX_LIVES, and a concrete overwhelming
tick sets lives to 0 and status to GAMEOVER. -/
theorem C3_witness :
    (0 ≤ (initState 0).gameState.lives ∧
      (initState 0).gameState.lives ≤ MAX_LIVES) ∧
    (handlePop (fun _ => 0) 0 5 c3HeartState).gameState.lives = MAX_LIVES ∧
    ((tickA c3TickState).gameState.lives = 0 ∧
      (tickA c3TickState).gameState.status = GameStatus.GAMEOVER) :=
  ⟨C3_lives_bounds.1 (initState 0) ⟨0, Relation.ReflTransGen.refl⟩,
   C3_lives_bounds.2.1 (fun _ => 0) 0 5 c3HeartState 0
     (c3HeartState.bubbles.get ⟨0, by decide⟩)
     (by decide) (by decide) (by decide) (by decide) (by decide) (by decide),
   C3_lives_bounds.2.2 c3TickState rfl
     (by
       norm_num [livesToSubtractOf, missedOf, moveBubble, demoMissBubble,
         c3TickState, List.filter_cons, List.filter_nil, List.map_cons,
         List.map_nil, decide_eq_true_eq]
       decide)
     (by
       norm_num [livesToSubtractOf, missedOf, moveBubble, demoMissBubble,
         c3TickState, demoGameState, List.filter_cons, List.filter_nil,
         List.map_cons, List.map_nil, decide_eq_true_eq]
       decide)⟩

/-- C4 witness: the armored bubble survives two pops with decremented
health, disappears on the third, and the fourth pop changes nothing. -/
theorem C4_witness :
    (handlePop (fun _ => 0) 0 7 c4State).bubbles = [{ c4Bubble with health := 2 }] ∧
    (handlePop (fun _ => 0) 0 7 (handlePop (fun _ => 0) 0 7 c4State)).bubbles =
      [{ c4Bubble with health := 1 }] ∧
    (handlePop (fun _ => 0) 0 7 (handlePop (fun _ => 0) 0 7
      (handlePop (fun _ => 0) 0 7 c4State))).bubbles = [] ∧
    (∀ x ∈ (handlePop (fun _ => 0) 0 7 (handlePop (fun _ => 0) 0 7
      (handlePop (fun _ => 0) 0 7 c4State))).bubbles, (x.id == (7 : Rat)) = false) ∧
    handlePop (fun _ => 0) 0 7 (handlePop (fun _ => 0) 0 7 (handlePop (fun _ => 0) 0 7
      (handlePop (fun _ => 0) 0 7 c4State))) =
      handlePop (fun _ => 0) 0 7 (handlePop (fun _ => 0) 0 7
        (handlePop (fun _ => 0) 0 7 c4State)) :=
  C4_armored_three_pops.2.2 (fun _ => 0) (fun _ => 0) (fun _ => 0) (fun _ => 0)
    0 0 0 0 7 c4State [] [] c4Bubble (by decide) rfl (by decide) (by decide)
    (by decide) (by decide)

end BubblePop
